import Mathlib

/-!
Shallow embedding of the goutils repository's concurrency core:
the one-shot `Result` future (internal/primitives) and the bounded
worker-pool task queue (queue/queue_impl.go), together with proofs
about their specified behavior.

Machine-level conventions of the embedding:
* Go `error` values become the inductive `GoError`; `nil` error is `none`.
* A Go channel of capacity 1 (the transport inside `Result[T]`) becomes
  `ResultChan`: a list of buffered values (length at most 1) plus a
  closed flag.  Channel operations return explicit outcomes: a send on
  a full channel blocks, a send on a closed channel panics, a receive
  on an open empty channel blocks, a receive on a closed empty channel
  yields the zero value, and closing a closed channel panics — the
  semantics of the Go runtime.
* Time is a `Nat` of nanoseconds; `context.Context` becomes `Ctx`,
  carrying an optional absolute deadline and a cancellation flag.
-/

namespace Goutils

/-- Go error values relevant to the queue/future core.  Sentinels are
matched by identity, so an inductive with one constructor per sentinel
is faithful; `userError` stands for an arbitrary error produced by the
user's processing function, `panicInWorker` for the error built by
`fmt.Errorf("panic in worker %v", r)` in `work`. -/
inductive GoError where
  | errQueueClosed
  | errPushTimeout
  | ctxDeadlineExceeded
  | ctxCanceled
  | userError (msg : String)
  | panicInWorker (desc : String)
deriving DecidableEq

/-- The `resultValue[T]` struct of internal/primitives: a value paired
with a Go error (`none` = nil). -/
structure ResultValue (T : Type) where
  value : T
  error : Option GoError
deriving DecidableEq

/-- The state of the `chan resultValue[T]` of capacity 1 inside
`Result[T]`: the buffered values (at most one) and the closed flag. -/
structure ResultChan (T : Type) where
  buf : List (ResultValue T)
  closed : Bool
deriving DecidableEq

/-- Outcome of a Go channel send on the capacity-1 result channel. -/
inductive SendOutcome (T : Type) where
  | ok (c : ResultChan T)
  | blocked
  | panicked
deriving DecidableEq

/-- Go semantics of `ch <- v` on a capacity-1 channel: panics if the
channel is closed, buffers the value if there is space, otherwise the
sender blocks. -/
def chanSend {T : Type} (c : ResultChan T) (v : ResultValue T) : SendOutcome T :=
  if c.closed then .panicked
  else if c.buf.length < 1 then .ok { c with buf := c.buf ++ [v] }
  else .blocked

/-- Outcome of a Go channel receive on the result channel. -/
inductive RecvOutcome (T : Type) where
  | ok (v : ResultValue T) (c : ResultChan T)
  | closedEmpty (c : ResultChan T)
  | blocked
deriving DecidableEq

/-- Go semantics of `<-ch`: a buffered value is delivered; on an empty
closed channel the zero value is delivered immediately; on an empty
open channel the receiver blocks. -/
def chanRecv {T : Type} (c : ResultChan T) : RecvOutcome T :=
  match c.buf with
  | v :: rest => .ok v { c with buf := rest }
  | [] => if c.closed then .closedEmpty c else .blocked

/-- Post-state of a send that completed: when the send cannot complete
(full buffer or closed channel) the channel is unchanged, the sender
being stuck or panicking. -/
def chanSendState {T : Type} (c : ResultChan T) (v : ResultValue T) : ResultChan T :=
  match chanSend c v with
  | .ok c1 => c1
  | _ => c

namespace Result

/-- `NewResult[T]()`: a fresh `Result` whose channel has capacity 1,
empty buffer, not closed. -/
def NewResult (T : Type) : ResultChan T := { buf := [], closed := false }

/-- `Result.Resolve(value, err)`: a bare send of the pair into the
result channel — exactly `r.result <- resultValue{value, err}`. -/
def Resolve {T : Type} (c : ResultChan T) (value : T) (err : Option GoError) :
    SendOutcome T :=
  chanSend c ⟨value, err⟩

/-- Outcome of `Result.Await`. -/
inductive AwaitOutcome (T : Type) where
  | ok (value : T) (error : Option GoError) (c : ResultChan T)
  | blocked
  | panicked (c : ResultChan T)
deriving DecidableEq

/-- `Result.Await()`: `data := <-r.result; defer close(r.result);
return data.Value, data.Error`.  The receive may block; once a value
(or the closed-channel zero value) is delivered, the deferred
`close` runs — and panics if the channel is already closed. -/
def Await {T : Type} (zero : T) (c : ResultChan T) : AwaitOutcome T :=
  match chanRecv c with
  | .ok v c1 =>
      if c1.closed then .panicked c1
      else .ok v.value v.error { c1 with closed := true }
  | .closedEmpty c1 => .panicked c1
  | .blocked => .blocked

end Result

/-! ## The per-task worker goroutine of `work` (queue/queue_impl.go)

Each admitted task is executed by a goroutine whose body is a select on
the task's context followed by the processing function, guarded by a
deferred recover.  The embedding splits this into the body (which
either resolves the future or lets a panic escape) and the deferred
function (which, per Go semantics, runs on every exit path, recovers
any in-flight panic, and then releases the running counter, wait
group, per-task context and semaphore slot unconditionally). -/

/-- A Go panic value as seen by `recover()`: either a value that
implements `error`, or any other value (kept as its printed form). -/
inductive PanicValue where
  | errValue (e : GoError)
  | nonError (desc : String)
deriving DecidableEq

/-- What the user-supplied processing function does on one task: return
a `(value, error)` pair normally, or panic with some value. -/
inductive WorkerBehavior (R : Type) where
  | returns (value : R) (error : Option GoError)
  | panics (v : PanicValue)
deriving DecidableEq

/-- End state of one worker goroutine: the task's future after the
goroutine exits, together with the effects of the deferred cleanup and
whether a panic escaped the goroutine (an escaped panic would crash the
whole Go process, i.e. the pool). -/
structure GoroutineExit (R : Type) where
  fut : ResultChan R
  runningDelta : Int
  semReleased : Bool
  wgDone : Bool
  ctxCanceled : Bool
  panicEscaped : Bool
deriving DecidableEq

/-- The select body of the goroutine: if the task's context is already
done, resolve with the context's error and skip the processing
function; otherwise run the processing function — a normal return
resolves the future with `(data, dataErr)` exactly as returned, a
panic leaves the future untouched and escapes the body. -/
def taskBody {R : Type} (zero : R) (ctxDone : Bool) (ctxErr : GoError)
    (behavior : WorkerBehavior R) (fut : ResultChan R) :
    ResultChan R × Option PanicValue :=
  if ctxDone then (chanSendState fut ⟨zero, some ctxErr⟩, none)
  else
    match behavior with
    | .returns v e => (chanSendState fut ⟨v, e⟩, none)
    | .panics p => (fut, some p)

/-- The error resolution built by the recover branch of the deferred
function in `work`: a panic value that is itself an `error` is passed
through verbatim (`ival.result.Resolve(*new(R), err)`); any other
panic value is wrapped by `fmt.Errorf("panic in worker %v", r)`. -/
def recoverResolution {R : Type} (zero : R) (p : PanicValue) : ResultValue R :=
  match p with
  | .errValue e => ⟨zero, some e⟩
  | .nonError desc => ⟨zero, some (.panicInWorker desc)⟩

/-- The deferred function of the worker goroutine.  Go runs it on every
exit path; `recover()` consumes the in-flight panic value if there is
one, in which case the future is resolved with `recoverResolution`;
the running counter (`AddInt64 -1`), wait group (`wg.Done`), per-task
context (`ctxCancel`) and semaphore slot (`<-sem`) are then released
unconditionally.  Since the deferred function itself returns normally,
no panic escapes the goroutine. -/
def deferredCleanup {R : Type} (zero : R) (st : ResultChan R × Option PanicValue) :
    GoroutineExit R :=
  { fut :=
      match st.2 with
      | some p => chanSendState st.1 (recoverResolution zero p)
      | none => st.1
    runningDelta := -1
    semReleased := true
    wgDone := true
    ctxCanceled := true
    panicEscaped := false }

/-- One worker goroutine end to end: the body followed by the deferred
cleanup (which Go runs whether the body returned or panicked). -/
def workGoroutine {R : Type} (zero : R) (ctxDone : Bool) (ctxErr : GoError)
    (behavior : WorkerBehavior R) (fut : ResultChan R) : GoroutineExit R :=
  deferredCleanup zero (taskBody zero ctxDone ctxErr behavior fut)

/-! ## The queue itself (queue/queue.go, queue/queue_impl.go) -/

/-- A `context.Context` at the granularity the queue consumes it: an
optional absolute deadline (nanoseconds) and a cancellation flag.
`context.Background()` has neither. -/
structure Ctx where
  deadline : Option Nat
  canceled : Bool
deriving DecidableEq

/-- `context.Background()`. -/
def Ctx.background : Ctx := { deadline := none, canceled := false }

/-- `context.WithTimeout(parent, d)` at time `now`: the derived context
keeps the parent's cancellation and carries deadline `now + d` (the
parents used by the queue never carry an earlier deadline). -/
def Ctx.withTimeout (parent : Ctx) (now d : Nat) : Ctx :=
  { parent with deadline := some (now + d) }

/-- `queue.Config`: all three fields are Go integers (`time.Duration`
is an `int64` of nanoseconds), so negative configured values are
representable. -/
structure Config where
  Size : Int
  Concurrency : Int
  DefaultTimeout : Int
deriving DecidableEq

/-- `const DefaultTimeout = 1<<63 - 1 // effectively no timeout` —
the sentinel installed when the configured timeout is ≤ 0. -/
def DefaultTimeoutSentinel : Int := 2 ^ 63 - 1

/-- The normalization performed at the top of `New`: `Size` defaults to
100, `Concurrency` to 10 and `DefaultTimeout` to the no-timeout
sentinel whenever the configured value is ≤ 0. -/
def Config.normalize (cfg : Config) : Config :=
  { Size := if cfg.Size ≤ 0 then 100 else cfg.Size
    Concurrency := if cfg.Concurrency ≤ 0 then 10 else cfg.Concurrency
    DefaultTimeout :=
      if cfg.DefaultTimeout ≤ 0 then DefaultTimeoutSentinel
      else cfg.DefaultTimeout }

/-- A task buffered in the `items` channel: its derived context and the
pushed value (the embedding returns each task's future to the pusher
separately, so it is not stored here). -/
structure QTask (T : Type) where
  ctx : Ctx
  value : T
deriving DecidableEq

/-- The mutable state of a `QueueImpl`: the buffered `items` channel
(list of buffered tasks, closed flag, capacity `size`), the atomic
`closed` flag, the atomic `running` counter, the wait-group count and
the fixed configuration fields. -/
structure QueueState (T : Type) where
  items : List (QTask T)
  itemsClosed : Bool
  size : Nat
  closed : Bool
  running : Nat
  wgCount : Nat
  defaultTimeout : Nat
  concurrency : Nat
deriving DecidableEq

namespace QueueImpl

/-- The `context` method of `QueueImpl`: a nil context becomes
`WithTimeout(Background, defaultTimeout)`; a context without a
deadline gets the default timeout applied; a context that already has
a deadline is used as-is. -/
def context {T : Type} (qi : QueueState T) (ctx : Option Ctx) (now : Nat) : Ctx :=
  match ctx with
  | none => Ctx.withTimeout Ctx.background now qi.defaultTimeout
  | some c =>
      match c.deadline with
      | none => Ctx.withTimeout c now qi.defaultTimeout
      | some _ => c

/-- Outcome of a `Push` call.  Each constructor carries the queue state
after the call and the state of the future the caller holds.
`blocked` is the bare channel send `qi.items <- task{...}` finding the
buffer full: the caller is suspended inside `Push` with an unresolved
future, and nothing in `Push` selects on the derived context, so no
elapse of time resolves it. -/
inductive PushOutcome (T R : Type) where
  | rejectedClosed (q : QueueState T) (fut : ResultChan R)
  | enqueued (q : QueueState T) (fut : ResultChan R)
  | blocked (q : QueueState T) (fut : ResultChan R)
deriving DecidableEq

/-- The error currently buffered in the future a `Push` outcome hands
back (none while the future is unresolved). -/
def PushOutcome.futureError {T R : Type} : PushOutcome T R → Option GoError
  | .rejectedClosed _ f | .enqueued _ f | .blocked _ f =>
      match f.buf with
      | [] => none
      | v :: _ => v.error

/-- `Push(ctx, value)`: derive the effective context, create a fresh
future; if the `closed` flag is set, resolve the future immediately
with `ErrQueueClosed` and leave the buffer untouched; otherwise
perform a bare channel send of the task — buffering it if the channel
has space and blocking the caller if it is full.  There is no timeout
branch: the derived context's deadline is only stored inside the
enqueued task. -/
def Push {T R : Type} (zero : R) (qi : QueueState T) (ctx : Option Ctx)
    (value : T) (now : Nat) : PushOutcome T R :=
  let newCtx := context qi ctx now
  let result := Result.NewResult R
  if qi.closed then
    .rejectedClosed qi (chanSendState result ⟨zero, some .errQueueClosed⟩)
  else if qi.items.length < qi.size then
    .enqueued { qi with items := qi.items ++ [⟨newCtx, value⟩] } result
  else
    .blocked qi result

/-- Outcome of a `Shutdown` call. -/
inductive ShutdownOutcome (T : Type) where
  | ok (q : QueueState T)
  | ctxExpired (e : GoError) (q : QueueState T)
  | panicked (q : QueueState T)
deriving DecidableEq

/-- `Shutdown(ctx)`: store 1 into the `closed` flag, then select
between the derived context's `Done` channel and a goroutine that
waits on the wait group.  `wgWaitWins` records which select case fires
(when the wait-group count is already zero and the derived context's
deadline has not elapsed, only the wait-group case can fire).  The
wait-group case executes `close(qi.items)` — which panics if the
`items` channel was already closed by a previous `Shutdown`; the
context case returns the context's error without closing `items`. -/
def Shutdown {T : Type} (qi : QueueState T) (wgWaitWins : Bool)
    (ctxErr : GoError) : ShutdownOutcome T :=
  let qi1 := { qi with closed := true }
  if wgWaitWins then
    if qi1.itemsClosed then .panicked qi1
    else .ok { qi1 with itemsClosed := true }
  else
    .ctxExpired ctxErr qi1

/-- `queue.Status` values. -/
inductive Status where
  | idle
  | running
  | closed
deriving DecidableEq

/-- `Status()`: `Closed` once the `closed` flag is set, else `Running`
when `Running() > 0 || Queued() > 0`, else `Idle`. -/
def status {T : Type} (qi : QueueState T) : Status :=
  if qi.closed then .closed
  else if 0 < qi.running ∨ 0 < qi.items.length then .running
  else .idle

end QueueImpl

/-! ## The dispatch loop of `work` and its concurrency bound

`work` runs `for val := range qi.items { sem <- struct{}{};
atomic.AddInt64(&qi.running, 1); qi.wg.Add(1); go func(ival){...}(val) }`
with `sem` a channel of capacity `concurrency`.  Each task therefore
passes through the stages below; the `running` counter counts exactly
the tasks whose increment has happened and whose deferred decrement has
not, and the semaphore is held from the `sem <-` until the `<-sem` in
the goroutine's deferred function. -/

/-- Snapshot of the pipeline: how many tasks sit in each stage.
`buffered`: in the `items` channel; `dequeued`: received by the loop,
semaphore not yet acquired; `semHeld`: semaphore acquired, `running`
counter not yet incremented; `running`: counter incremented, goroutine
live (this is the value `Running()` reports); `exiting`: counter
decremented in the deferred function, slot not yet released;
`finished`: slot released. -/
structure PoolState where
  buffered : Nat
  dequeued : Nat
  semHeld : Nat
  running : Nat
  exiting : Nat
  finished : Nat
deriving DecidableEq

/-- Number of semaphore slots currently held: acquired at `sem <-` and
released only by the `<-sem` of the deferred function. -/
def PoolState.semCount (s : PoolState) : Nat :=
  s.semHeld + s.running + s.exiting

/-- Initial pipeline state: `n` admitted tasks, nothing claimed. -/
def initPool (n : Nat) : PoolState := ⟨n, 0, 0, 0, 0, 0⟩

/-- One interleaving step of the dispatch loop or of a worker
goroutine, for semaphore capacity `k`.  The dispatch loop is a single
goroutine, so it receives the next task only once the previous one has
been handed to its goroutine (`dequeued = 0` and `semHeld = 0`); the
semaphore acquisition blocks while `k` slots are held. -/
inductive PoolStep (k : Nat) : PoolState → PoolState → Prop where
  | dequeue (s : PoolState) (h : 0 < s.buffered) (h2 : s.dequeued = 0)
      (h3 : s.semHeld = 0) :
      PoolStep k s { s with buffered := s.buffered - 1, dequeued := s.dequeued + 1 }
  | acquire (s : PoolState) (h : 0 < s.dequeued) (hk : s.semCount < k) :
      PoolStep k s { s with dequeued := s.dequeued - 1, semHeld := s.semHeld + 1 }
  | startExec (s : PoolState) (h : 0 < s.semHeld) :
      PoolStep k s { s with semHeld := s.semHeld - 1, running := s.running + 1 }
  | exitDec (s : PoolState) (h : 0 < s.running) :
      PoolStep k s { s with running := s.running - 1, exiting := s.exiting + 1 }
  | releaseSlot (s : PoolState) (h : 0 < s.exiting) :
      PoolStep k s { s with exiting := s.exiting - 1, finished := s.finished + 1 }

/-- Reflexive-transitive closure of `PoolStep`. -/
inductive PoolReachable (k : Nat) : PoolState → PoolState → Prop where
  | refl (s : PoolState) : PoolReachable k s s
  | tail {s t u : PoolState} :
      PoolReachable k s t → PoolStep k t u → PoolReachable k s u

theorem poolStep_semCount_le {k : Nat} {s t : PoolState}
    (hs : s.semCount ≤ k) (h : PoolStep k s t) : t.semCount ≤ k := by
  cases h <;> simp only [PoolState.semCount] at * <;> omega

theorem poolReachable_semCount_le {k n : Nat} {s : PoolState}
    (h : PoolReachable k (initPool n) s) : s.semCount ≤ k := by
  induction h with
  | refl => dsimp [initPool, PoolState.semCount]; omega
  | tail _ hstep ih => exact poolStep_semCount_le ih hstep

end Goutils

namespace Goutils

/-- C1 (evaluating the code at the failing input): `Push` of
queue/queue_impl.go has no timeout branch.  First, across all queue
states, contexts and clock values, the future handed back by `Push`
either holds `ErrQueueClosed` or is unresolved — it never holds
`ErrPushTimeout`.  Second, on a full open queue a `Push` whose context
deadline is 10ns stays `blocked` at every clock value `now`, in
particular long after the deadline has elapsed: the bare channel send
never wakes on the deadline, so the future is never resolved with
`ErrPushTimeout` as the spec requires. -/
theorem push_never_resolves_push_timeout :
    (∀ (qi : QueueState Nat) (c : Option Ctx) (v now : Nat),
        (QueueImpl.Push (R := Nat) 0 qi c v now).futureError
            = some GoError.errQueueClosed
        ∨ (QueueImpl.Push (R := Nat) 0 qi c v now).futureError = none)
    ∧ (∀ now : Nat,
        QueueImpl.Push (R := Nat) 0
            ⟨[⟨⟨some 3, false⟩, 1⟩], false, 1, false, 1, 1, 50, 1⟩
            (some ⟨some 10, false⟩) 2 now
          = .blocked ⟨[⟨⟨some 3, false⟩, 1⟩], false, 1, false, 1, 1, 50, 1⟩
              (Result.NewResult Nat)) := by
  constructor
  · intro qi c v now
    by_cases hc : qi.closed
    · left
      simp [QueueImpl.Push, hc, QueueImpl.PushOutcome.futureError,
        chanSendState, chanSend, Result.NewResult]
    · right
      by_cases hl : qi.items.length < qi.size <;>
        simp [QueueImpl.Push, hc, hl, QueueImpl.PushOutcome.futureError,
          Result.NewResult]
  · intro now
    rfl

/-- C3 (evaluating the code at the failing input): a first `Shutdown`
on an idle open queue succeeds, marking the queue closed and closing
the `items` channel, after which `Status()` reports `Closed`.  But a
second `Shutdown` on that state can never return nil: if the
wait-group case of its select fires (which it does immediately, the
wait group being empty) it executes `close(qi.items)` on the
already-closed channel and panics; if instead the context case fires,
it returns the context's error. -/
theorem shutdown_second_call_never_nil :
    QueueImpl.Shutdown (T := Nat) ⟨[], false, 5, false, 0, 0, 1000, 1⟩ true
        GoError.ctxDeadlineExceeded
      = .ok ⟨[], true, 5, true, 0, 0, 1000, 1⟩
    ∧ QueueImpl.status (T := Nat) ⟨[], true, 5, true, 0, 0, 1000, 1⟩
      = .closed
    ∧ (∀ (b : Bool) (e : GoError),
        QueueImpl.Shutdown (T := Nat) ⟨[], true, 5, true, 0, 0, 1000, 1⟩ b e
          = .panicked ⟨[], true, 5, true, 0, 0, 1000, 1⟩
        ∨ QueueImpl.Shutdown (T := Nat) ⟨[], true, 5, true, 0, 0, 1000, 1⟩ b e
          = .ctxExpired e ⟨[], true, 5, true, 0, 0, 1000, 1⟩) := by
  refine ⟨rfl, rfl, ?_⟩
  intro b e
  cases b
  · right; rfl
  · left; rfl

/-- C4: on a queue whose `closed` flag is set, `Push` returns a future
already resolved with `ErrQueueClosed`, leaves the queue state (in
particular the `items` buffer) unchanged — so the task is never
enqueued and the processing function, which only ever runs on tasks
drained from `items`, is never invoked for the value — and `Await` on
that future returns immediately with the `ErrQueueClosed` error. -/
theorem push_on_closed_queue_rejects {T R : Type} (zero : R)
    (qi : QueueState T) (c : Option Ctx) (v : T) (now : Nat)
    (h : qi.closed = true) :
    QueueImpl.Push zero qi c v now
      = .rejectedClosed qi
          { buf := [⟨zero, some GoError.errQueueClosed⟩], closed := false }
    ∧ Result.Await zero
        ({ buf := [⟨zero, some GoError.errQueueClosed⟩], closed := false } :
          ResultChan R)
      = .ok zero (some GoError.errQueueClosed) { buf := [], closed := true } := by
  constructor
  · simp [QueueImpl.Push, h, chanSendState, chanSend, Result.NewResult]
  · rfl

/-- C4 witness: a concrete shut-down queue rejecting a push. -/
theorem push_on_closed_queue_rejects_witness :
    QueueImpl.Push (T := Nat) (R := Nat) 0 ⟨[], true, 5, true, 0, 0, 1000, 2⟩
        none 42 0
      = .rejectedClosed ⟨[], true, 5, true, 0, 0, 1000, 2⟩
          { buf := [⟨0, some GoError.errQueueClosed⟩], closed := false }
    ∧ Result.Await 0
        ({ buf := [⟨0, some GoError.errQueueClosed⟩], closed := false } :
          ResultChan Nat)
      = .ok 0 (some GoError.errQueueClosed) { buf := [], closed := true } :=
  push_on_closed_queue_rejects 0 ⟨[], true, 5, true, 0, 0, 1000, 2⟩ none 42 0 rfl

/-- C7: the effective deadline of a push is derived in priority order —
a caller context that has a deadline is used as-is; a caller context
without a deadline gets the queue's `defaultTimeout` applied; `New`
turns any configured `DefaultTimeout ≤ 0` into the no-timeout
sentinel `1<<63 - 1`; and with a deadline-free caller context a push
to a full open queue blocks at every clock value — admission never
unblocks on its own. -/
theorem push_deadline_priority :
    (∀ (qi : QueueState Nat) (c : Ctx) (now d : Nat), c.deadline = some d →
        QueueImpl.context qi (some c) now = c)
    ∧ (∀ (qi : QueueState Nat) (c : Ctx) (now : Nat), c.deadline = none →
        QueueImpl.context qi (some c) now
          = { c with deadline := some (now + qi.defaultTimeout) })
    ∧ (∀ cfg : Config, cfg.DefaultTimeout ≤ 0 →
        cfg.normalize.DefaultTimeout = DefaultTimeoutSentinel)
    ∧ (∀ (qi : QueueState Nat) (c : Ctx) (v now : Nat),
        qi.closed = false → qi.size ≤ qi.items.length → c.deadline = none →
        QueueImpl.Push (R := Nat) 0 qi (some c) v now
          = .blocked qi (Result.NewResult Nat)) := by
  refine ⟨?_, ?_, ?_, ?_⟩
  · intro qi c now d h
    cases c
    simp_all [QueueImpl.context]
  · intro qi c now h
    cases c
    simp_all [QueueImpl.context, Ctx.withTimeout]
  · intro cfg h
    simp [Config.normalize, h]
  · intro qi c v now h1 h2 h3
    have hl : ¬ qi.items.length < qi.size := by omega
    simp [QueueImpl.Push, h1, hl, Result.NewResult]

/-- C7 witness: the three deadline sources and the blocking full-queue
push, each at a concrete input. -/
theorem push_deadline_priority_witness :
    QueueImpl.context (T := Nat) ⟨[], false, 1, false, 0, 0, 50, 1⟩
        (some ⟨some 10, false⟩) 0
      = ⟨some 10, false⟩
    ∧ QueueImpl.context (T := Nat) ⟨[], false, 1, false, 0, 0, 50, 1⟩
        (some ⟨none, false⟩) 7
      = ⟨some 57, false⟩
    ∧ (Config.mk 10 2 (-5)).normalize.DefaultTimeout = DefaultTimeoutSentinel
    ∧ QueueImpl.Push (R := Nat) 0
        ⟨[⟨⟨some 3, false⟩, 9⟩], false, 1, false, 1, 1, 50, 1⟩
        (some ⟨none, false⟩) 4 999
      = .blocked ⟨[⟨⟨some 3, false⟩, 9⟩], false, 1, false, 1, 1, 50, 1⟩
          (Result.NewResult Nat) :=
  ⟨push_deadline_priority.1 ⟨[], false, 1, false, 0, 0, 50, 1⟩ ⟨some 10, false⟩ 0 10 rfl,
   push_deadline_priority.2.1 ⟨[], false, 1, false, 0, 0, 50, 1⟩ ⟨none, false⟩ 7 rfl,
   push_deadline_priority.2.2.1 (Config.mk 10 2 (-5)) (by decide),
   push_deadline_priority.2.2.2 ⟨[⟨⟨some 3, false⟩, 9⟩], false, 1, false, 1, 1, 50, 1⟩
     ⟨none, false⟩ 4 999 rfl (by decide) rfl⟩

/-- C9: `Push` with a nil context substitutes
`WithTimeout(Background, defaultTimeout)` — the `ctx == nil` branch of
the `context` method — and from there behaves identically to a push
with a deadline-free context: both the derived context and the whole
push outcome coincide, so a nil cancellation carrier never reaches a
nil dereference. -/
theorem push_nil_context_equiv {T R : Type} (zero : R) (qi : QueueState T)
    (v : T) (now : Nat) :
    QueueImpl.context qi none now
      = QueueImpl.context qi (some Ctx.background) now
    ∧ QueueImpl.Push (R := R) zero qi none v now
      = QueueImpl.Push zero qi (some Ctx.background) v now := by
  exact ⟨rfl, rfl⟩

/-- C8: on every pipeline state reachable from `n` admitted tasks under
semaphore capacity `Concurrency` (as normalized by `New`, so 10 when
the configured value is ≤ 0), the `running` counter — the value
`Running()` reports — never exceeds the concurrency ceiling, because
the counter is incremented only while a semaphore slot is held and the
slot is released only after the deferred decrement. -/
theorem running_bounded_by_concurrency (cfg : Config) (n : Nat)
    (s : PoolState)
    (h : PoolReachable cfg.normalize.Concurrency.toNat (initPool n) s) :
    s.running ≤ cfg.normalize.Concurrency.toNat
    ∧ (cfg.Concurrency ≤ 0 → cfg.normalize.Concurrency = 10) := by
  constructor
  · have hsem := poolReachable_semCount_le h
    dsimp [PoolState.semCount] at hsem
    omega
  · intro hc
    simp [Config.normalize, hc]

/-- C8 witness: with `Concurrency = 2`, a state reached by admitting
two tasks and driving one of them to execution satisfies the bound. -/
theorem running_bounded_by_concurrency_witness :
    (⟨1, 0, 0, 1, 0, 0⟩ : PoolState).running
      ≤ (Config.mk 10 2 1000).normalize.Concurrency.toNat
    ∧ ((Config.mk 10 2 1000).Concurrency ≤ 0 →
        (Config.mk 10 2 1000).normalize.Concurrency = 10) :=
  running_bounded_by_concurrency (Config.mk 10 2 1000) 2 ⟨1, 0, 0, 1, 0, 0⟩
    (PoolReachable.tail
      (PoolReachable.tail
        (PoolReachable.tail (PoolReachable.refl (initPool 2))
          (PoolStep.dequeue (initPool 2) (by decide) (by decide) (by decide)))
        (PoolStep.acquire ⟨1, 1, 0, 0, 0, 0⟩ (by decide) (by decide)))
      (PoolStep.startExec ⟨1, 0, 1, 0, 0, 0⟩ (by decide)))

end Goutils

namespace Goutils

/-- C6 counterexample: on a fresh `Result`, a first `Resolve` stores its
pair, and a second `Resolve` issued before any `Await` does NOT complete
— the capacity-1 channel is full, so the second caller blocks instead of
being silently ignored.  This falsifies the claim that `Resolve` never
blocks and that later calls are ignored. -/
theorem second_resolve_blocks_cex :
    Result.Resolve (Result.NewResult Nat) 1 none
      = .ok { buf := [⟨1, none⟩], closed := false }
    ∧ Result.Resolve { buf := [⟨1, none⟩], closed := false } 2 none
      = SendOutcome.blocked := by
  constructor <;> rfl

/-- C6 (amended): the first `Resolve` on a fresh `Result` completes
without blocking and its pair is what the first `Await` returns; but a
second `Resolve` before the value is consumed blocks the caller (it is
not ignored), and a `Resolve` after `Await` has consumed the value
panics, the channel having been closed. -/
theorem resolve_first_write_then_blocks {T : Type} (zero v w : T)
    (e f : Option GoError) :
    Result.Resolve (Result.NewResult T) v e
      = .ok { buf := [⟨v, e⟩], closed := false }
    ∧ Result.Resolve { buf := [⟨v, e⟩], closed := false } w f
      = SendOutcome.blocked
    ∧ Result.Await zero { buf := [⟨v, e⟩], closed := false }
      = .ok v e { buf := [], closed := true }
    ∧ Result.Resolve { buf := ([] : List (ResultValue T)), closed := true } w f
      = SendOutcome.panicked := by
  refine ⟨rfl, rfl, rfl, rfl⟩

/-- C10: `Await` is a destructive single read.  Before `Resolve` has
run the caller blocks; once resolved, `Await` returns the stored pair
and closes the internal channel; a second `Await` on the consumed
`Result` does not block — it panics, closing an already-closed
channel. -/
theorem await_destructive_single_read {T : Type} (zero v : T)
    (e : Option GoError) :
    Result.Await zero (Result.NewResult T) = .blocked
    ∧ Result.Await zero { buf := [⟨v, e⟩], closed := false }
      = .ok v e { buf := [], closed := true }
    ∧ Result.Await zero { buf := ([] : List (ResultValue T)), closed := true }
      = .panicked { buf := [], closed := true } := by
  refine ⟨rfl, rfl, rfl⟩

/-- C2: a panic in the processing function is recovered at the per-task
boundary: for every panic value the goroutine exits without the panic
escaping (so the pool survives), the task's future is resolved with an
error result that the caller's `Await` observes, and the deferred
cleanup releases the running counter, wait group, per-task context and
semaphore slot on that exit path; a concurrently executing task with a
normally returning processing function still resolves to its own
result, its future being untouched by the faulting task. -/
theorem work_panic_contained_slot_released {R : Type} (zero w : R)
    (cerr cerr2 : GoError) (p : PanicValue) (e : Option GoError) :
    ((workGoroutine zero false cerr (.panics p) (Result.NewResult R)).panicEscaped
        = false)
    ∧ (Result.Await zero (workGoroutine zero false cerr (.panics p)
          (Result.NewResult R)).fut
        = .ok zero (recoverResolution zero p).error { buf := [], closed := true })
    ∧ ((recoverResolution zero p).error).isSome = true
    ∧ (workGoroutine zero false cerr (.panics p) (Result.NewResult R)).runningDelta
        = -1
    ∧ (workGoroutine zero false cerr (.panics p) (Result.NewResult R)).semReleased
        = true
    ∧ (workGoroutine zero false cerr (.panics p) (Result.NewResult R)).wgDone
        = true
    ∧ (workGoroutine zero false cerr (.panics p) (Result.NewResult R)).ctxCanceled
        = true
    ∧ (Result.Await zero (workGoroutine zero false cerr2 (.returns w e)
          (Result.NewResult R)).fut
        = .ok w e { buf := [], closed := true }) := by
  cases p <;>
    exact ⟨rfl, rfl, rfl, rfl, rfl, rfl, rfl, rfl⟩

/-- C5 counterexample: a processing function that panics with a value
that is itself an `error` leaves the pool in exactly the same state as
a processing function that returns that error normally — the recover
branch resolves the panic value verbatim, without wrapping it into the
distinguishable `panic in worker` error.  A caller awaiting the future
therefore cannot tell the contained panic apart from an ordinary error
return, falsifying the claim. -/
theorem panic_error_value_indistinguishable_cex :
    workGoroutine (R := Nat) 0 false GoError.ctxCanceled
        (.panics (.errValue (.userError "boom"))) (Result.NewResult Nat)
      = workGoroutine (R := Nat) 0 false GoError.ctxCanceled
        (.returns 0 (some (.userError "boom"))) (Result.NewResult Nat)
    ∧ (workGoroutine (R := Nat) 0 false GoError.ctxCanceled
        (.panics (.errValue (.userError "boom"))) (Result.NewResult Nat)).fut
      = { buf := [⟨0, some (.userError "boom")⟩], closed := false } := by
  exact ⟨rfl, rfl⟩

/-- C5 (amended): only a panic whose value is not an `error` is wrapped
into the distinguishable `panic in worker %v` error; a panic whose
value is itself an `error` is resolved on the future verbatim and is
indistinguishable from the processing function returning that same
error. -/
theorem panic_resolution_wrapping {R : Type} (zero : R) (desc : String)
    (e : GoError) :
    (workGoroutine zero false GoError.ctxCanceled (.panics (.nonError desc))
        (Result.NewResult R)).fut
      = { buf := [⟨zero, some (.panicInWorker desc)⟩], closed := false }
    ∧ (workGoroutine zero false GoError.ctxCanceled (.panics (.errValue e))
        (Result.NewResult R)).fut
      = { buf := [⟨zero, some e⟩], closed := false }
    ∧ (workGoroutine zero false GoError.ctxCanceled (.panics (.errValue e))
        (Result.NewResult R)).fut
      = (workGoroutine zero false GoError.ctxCanceled (.returns zero (some e))
        (Result.NewResult R)).fut := by
  exact ⟨rfl, rfl, rfl⟩

end Goutils
